import Mathlib

/-!
A shallow embedding of the package-assembly layer of
direct/src/p3d/Packager.py: the PackFile classifier and exclusion test,
Package.addFile bookkeeping, the version comparator and local package
scan, the require directive, the descriptor writer and reader, and the
multifile install step.  Filenames are modelled as plain strings that
are already canonical (the VirtualFileSystem canonicalization performed
by makeTrueCase and makeCanonical is an external collaborator); glob
patterns are modelled as boolean predicates on strings.
-/

namespace P3d

/-- Scan of a filename from its right end (the character list is
reversed): the characters before the last dot of the basename together
with the remainder after that dot, or none when the basename has no
dot (a slash or the start of the string is reached first). -/
def extSplit : List Char → Option (List Char × List Char)
  | [] => none
  | c :: rest =>
    if c == '.' then some ([], rest)
    else if c == '/' then none
    else
      match extSplit rest with
      | some (e, r) => some (c :: e, r)
      | none => none

/-- Model of Filename.getExtension: the characters after the last dot of
the basename, or the empty string when the basename has no dot. -/
def getExtension (s : String) : String :=
  match extSplit s.data.reverse with
  | some (e, _) => String.mk e.reverse
  | none => ""

/-- Model of Filename.setExtension applied with the empty string: drops
the last dot of the basename and everything after it, or returns the
name unchanged when the basename has no dot. -/
def dropExtension (s : String) : String :=
  match extSplit s.data.reverse with
  | some (_, r) => String.mk r.reverse
  | none => s

/-- Model of Filename.getBasename: the part after the last slash. -/
def getBasename (s : String) : String :=
  String.mk ((s.data.reverse.takeWhile (fun c => !(c == '/'))).reverse)

/-- The per-run configuration of the Packager object that PackFile
construction and exclusion consult: the extension sets built in
Packager.__init__ and the system-file denylist.  Glob patterns are
modelled as boolean predicates. -/
structure PackagerCfg where
  uncompressibleExtensions : List String
  imageExtensions : List String
  executableExtensions : List String
  extractExtensions : List String
  platformSpecificExtensions : List String
  unprocessedExtensions : List String
  caseSensitive : Bool
  excludeSystemFiles : List String
  excludeSystemGlobs : List (String → Bool)

/-- One input file slated for inclusion, after construction
(Packager.PackFile attributes, with every optional flag resolved). -/
structure PackFile where
  filename : String
  newName : String
  deleteTemp : Bool
  explicit : Bool
  compress : Bool
  extract : Bool
  text : Option String
  unprocessed : Bool
  executable : Bool
  platformSpecific : Bool
deriving DecidableEq

/-- The keyword arguments accepted by Packager.PackFile.__init__; a
missing optional argument is None. -/
structure PackFileArgs where
  filename : String
  newName : Option String
  deleteTemp : Bool
  explicit : Bool
  compress : Option Bool
  extract : Option Bool
  text : Option String
  unprocessed : Option Bool
  executable : Option Bool
  platformSpecific : Option Bool
deriving DecidableEq

/-- Model of Packager.PackFile.__init__: defaults newName to the source
filename when absent or empty, strips a trailing .pz extension (forcing
compression on unless overridden), and derives each unset flag from the
extension sets of the packager configuration.  The executable search
path resolution and filename canonicalization act on the source
filename through the virtual file system and are modelled as the
identity on the already-canonical string. -/
def PackFile.make (cfg : PackagerCfg) (a : PackFileArgs) : PackFile :=
  let newName0 : String :=
    match a.newName with
    | none => a.filename
    | some n => if n.length = 0 then a.filename else n
  let ext0 := getExtension newName0
  let stripped := ext0 == "pz"
  let newName1 := if stripped then dropExtension newName0 else newName0
  let ext := if stripped then getExtension newName1 else ext0
  let compress0 : Option Bool :=
    if stripped && a.compress.isNone then some true else a.compress
  let compress : Bool :=
    match compress0 with
    | some c => c
    | none =>
      !(cfg.uncompressibleExtensions.contains ext)
        && !(cfg.imageExtensions.contains ext)
  let executable : Bool :=
    match a.executable with
    | some e => e
    | none => cfg.executableExtensions.contains ext
  let extract : Bool :=
    match a.extract with
    | some e => e
    | none => executable || cfg.extractExtensions.contains ext
  let platformSpecific : Bool :=
    match a.platformSpecific with
    | some p => p
    | none => executable || cfg.platformSpecificExtensions.contains ext
  let unprocessed : Bool :=
    match a.unprocessed with
    | some u => u
    | none => executable || cfg.unprocessedExtensions.contains ext
  { filename := a.filename
    newName := newName1
    deleteTemp := a.deleteTemp
    explicit := a.explicit
    compress := compress
    extract := extract
    text := a.text
    unprocessed := unprocessed
    executable := executable
    platformSpecific := platformSpecific }

/-- The slice of Packager.Package state that addFile and isExcluded
touch: the exclusion configuration and the three cross-referenced file
collections (the files list and the source and target dictionaries,
modelled as insertion-ordered association lists). -/
structure Package where
  packager : PackagerCfg
  skipFilenames : List String
  excludedFilenames : List (String → Bool)
  platformSpecificConfig : Option Bool
  files : List PackFile
  sourceFilenames : List (String × PackFile)
  targetFilenames : List (String × PackFile)

/-- Model of Packager.PackFile.isExcluded: a target name in the skip
set is always excluded; every other rule (system denylist, system
globs, user exclusion patterns, the platform-specific rule) applies
only to files that were not explicitly added. -/
def PackFile.isExcluded (file : PackFile) (package : Package) : Bool :=
  if package.skipFilenames.contains file.newName then true
  else if !file.explicit then
    let basename0 := getBasename file.newName
    let basename :=
      if !package.packager.caseSensitive then basename0.toLower else basename0
    if package.packager.excludeSystemFiles.contains basename then true
    else if package.packager.excludeSystemGlobs.any (fun g => g basename) then true
    else if package.excludedFilenames.any (fun g => g file.filename) then true
    else if file.platformSpecific && package.platformSpecificConfig == some false then true
    else false
  else false

/-- Whether an association list (a Python dict) carries the key. -/
def hasKey (kw : List (String × PackFile)) (k : String) : Bool :=
  kw.any (fun kv => kv.1 == k)

/-- The file-existence oracle consulted by addFile, abstracting the
virtual file system. -/
structure FsEnv where
  fileExists : String → Bool

/-- Model of Packager.Package.addFile: constructs the PackFile, returns
unchanged on a duplicate source filename, returns unchanged (after a
logged shadowing warning) on a target-name collision, records the
source filename, and appends to the files list and the target map only
when the file has inline text or exists on disk. -/
def Package.addFile (env : FsEnv) (package : Package) (a : PackFileArgs) : Package :=
  let file := PackFile.make package.packager a
  if hasKey package.sourceFilenames file.filename then package
  else if hasKey package.targetFilenames file.newName then package
  else
    let package1 :=
      { package with sourceFilenames := package.sourceFilenames ++ [(file.filename, file)] }
    if file.text.isNone && !(env.fileExists file.filename) then package1
    else
      { package1 with
        files := package1.files ++ [file]
        targetFilenames := package1.targetFilenames ++ [(file.newName, file)] }

/-- The number of PackFiles in a files list whose source filename is
the given one. -/
def countSource (files : List PackFile) (src : String) : Nat :=
  (files.filter (fun f => f.filename == src)).length

/-- One field of a version tuple produced by Packager.__makeVersionTuple:
a run of non-digit characters kept as a string, or a run of digits
converted to an integer. -/
inductive VerPart where
  | str : String → VerPart
  | num : Nat → VerPart
deriving DecidableEq

mutual

/-- Scanning state of Packager.__makeVersionTuple while inside a run of
non-digit characters (acc holds the run so far, reversed); on a digit
the accumulated word is emitted and digit scanning starts. -/
def scanWord : List Char → List Char → List VerPart
  | [], acc => [VerPart.str (String.mk acc.reverse)]
  | c :: cs, acc =>
    if c.isDigit then VerPart.str (String.mk acc.reverse) :: scanNum cs (c.toNat - 48)
    else scanWord cs (c :: acc)

/-- Scanning state of Packager.__makeVersionTuple while inside a run of
digits (n is the integer value so far); on a non-digit the number is
emitted and word scanning restarts at that character. -/
def scanNum : List Char → Nat → List VerPart
  | [], n => [VerPart.num n]
  | c :: cs, n =>
    if c.isDigit then scanNum cs (n * 10 + (c.toNat - 48))
    else VerPart.num n :: scanWord cs [c]

end

/-- Model of Packager.__makeVersionTuple: splits a version string into
alternating non-digit words and integer values, starting with a
(possibly empty) word; the empty string gives the empty tuple. -/
def makeVersionTuple (version : String) : List VerPart :=
  match version.data with
  | [] => []
  | cs => scanWord cs []

/-- Lexicographic comparison of character lists, modelling Python 2
string comparison for ASCII data. -/
def charListLt : List Char → List Char → Bool
  | [], [] => false
  | [], _ :: _ => true
  | _ :: _, [] => false
  | a :: as, b :: bs =>
    if a < b then true else if b < a then false else charListLt as bs

/-- Python 2 comparison of version-tuple fields: numbers compare
numerically, strings compare lexicographically, and in a mixed
comparison every integer sorts before every string. -/
def VerPart.ltb : VerPart → VerPart → Bool
  | .num a, .num b => a < b
  | .str a, .str b => charListLt a.data b.data
  | .num _, .str _ => true
  | .str _, .num _ => false

/-- Python 2 tuple comparison of version tuples: element-wise with a
shorter tuple sorting before any proper extension of itself. -/
def verLt : List VerPart → List VerPart → Bool
  | [], [] => false
  | [], _ :: _ => true
  | _ :: _, [] => false
  | a :: as, b :: bs =>
    if VerPart.ltb a b then true else if VerPart.ltb b a then false else verLt as bs

/-- A package parsed from a *.import.xml file during the local search
path scan: the fields consulted by the version sort and the
compatibility check. -/
inductive ImportPackage where
  | mk : String → String → List ImportPackage → ImportPackage

/-- The package name of a parsed import package. -/
def ImportPackage.packageName : ImportPackage → String
  | .mk n _ _ => n

/-- The version string of a parsed import package. -/
def ImportPackage.version : ImportPackage → String
  | .mk _ v _ => v

/-- The transitive requirements listed by a parsed import package. -/
def ImportPackage.requires : ImportPackage → List ImportPackage
  | .mk _ _ r => r

/-- Stable insertion of an element into a list sorted by the boolean
relation le. -/
def insertLe (le : α → α → Bool) (x : α) : List α → List α
  | [] => [x]
  | y :: ys => if le x y then x :: y :: ys else y :: insertLe le x ys

/-- Stable insertion sort by the boolean relation le, modelling the
stable Python list sort. -/
def sortByLe (le : α → α → Bool) : List α → List α
  | [] => []
  | x :: xs => insertLe le x (sortByLe le xs)

/-- Model of Packager.__findPackageInList: the first package in the
list with the given name. -/
def findPackageInList (packageName : String) : List ImportPackage → Option ImportPackage
  | [] => none
  | p :: rest =>
    if p.packageName == packageName then some p
    else findPackageInList packageName rest

/-- Model of Packager.__packageIsValid: with no prior requirements any
candidate is valid; otherwise the candidate is valid unless both the
candidate side and the prior requirements pin a panda3d package and the
two pinned versions differ. -/
def packageIsValid (package : ImportPackage) (requires : List ImportPackage) : Bool :=
  if requires.isEmpty then true
  else
    match findPackageInList "panda3d" (package :: package.requires),
          findPackageInList "panda3d" requires with
    | some panda1, some panda2 => panda1.version == panda2.version
    | _, _ => true

/-- Model of Packager.__sortImportPackages: builds (version tuple,
file) pairs where file is NOT the loop package but the stale name file
left over from the enclosing scan (modelled by the staleFile
parameter), sorts the pair list in descending order, and returns the
second components.  The input list is not reordered, and the caller in
__scanPackageDir discards the returned value. -/
def sortImportPackages (staleFile : α) (packages : List ImportPackage) : List α :=
  let tuples := packages.map (fun package => (makeVersionTuple package.version, staleFile))
  let sorted := sortByLe (fun a b => !(verLt a.1 b.1)) tuples
  sorted.map (fun t => t.2)

/-- Model of the candidate-selection tail of Packager.__scanPackageDir:
the parsed candidate list is passed to __sortImportPackages, whose
return value is discarded, and then the first candidate of the
original, unsorted list that passes __packageIsValid is returned.
Candidates whose import file failed to parse (None entries) are
omitted from the modelled list. -/
def scanPackageDirSelect (staleFile : α) (packages : List ImportPackage)
    (requires : List ImportPackage) : Option ImportPackage :=
  let _ := sortImportPackages staleFile packages
  packages.find? (fun package => packageIsValid package requires)

/-- A resolved package as seen by Packager.requirePackage: name,
optional version and optional host. -/
structure RequirePkg where
  packageName : String
  version : Option String
  host : Option String
deriving DecidableEq

/-- The environment of the require directive: the version and host URL
the running Panda build reports (PandaSystem.getPackageVersionString
and getPackageHostUrl), and the package resolver, abstracting
Packager.findPackage as a function from (name, version, host) to an
optional resolved package. -/
structure RequireEnv where
  runtimeVersion : String
  runtimeHost : String
  findPackage : String → Option String → Option String → Option RequirePkg

/-- Model of the panda3d checks of Packager.requirePackage (the notify
warnings of lines 2084-2088): a version different from the running
build draws a version warning, otherwise a host different from the
running build draws a host warning; neither is fatal. -/
def requirePackageWarnings (runtimeVersion runtimeHost : String)
    (package : RequirePkg) : List String :=
  if package.packageName == "panda3d" then
    if package.version != some runtimeVersion then ["panda3d version mismatch"]
    else if package.host != some runtimeHost then ["panda3d host mismatch"]
    else []
  else []

/-- Whether a keyword dictionary (modelled as an association list)
carries the key. -/
def kwHasKey (kw : List (String × String)) (k : String) : Bool :=
  kw.any (fun kv => kv.1 == k)

/-- Python del kw[k]: removes the key, or fails with KeyError when the
key is absent. -/
def kwDel (kw : List (String × String)) (k : String) :
    Option (List (String × String)) :=
  if kwHasKey kw k then some (kw.filter (fun kv => !(kv.1 == k))) else none

/-- Model of the keyword-cleanup prologue of Packager.do_require (lines
2040-2048): for each of the keys version and host that is present the
loop deletes the key version (not the loop key), then any surviving
keyword raises TypeError. -/
def doRequireKwCleanup (kw : List (String × String)) : Except String Unit :=
  let step1 : Option (List (String × String)) :=
    if kwHasKey kw "version" then kwDel kw "version" else some kw
  match step1 with
  | none => Except.error "KeyError: version"
  | some kw1 =>
    match (if kwHasKey kw1 "host" then kwDel kw1 "version" else some kw1) with
    | none => Except.error "KeyError: version"
    | some kw2 =>
      if kw2.isEmpty then Except.ok ()
      else Except.error "TypeError: unexpected keyword argument"

/-- The observable outcome of a do_require call: the uncaught exception
if one was raised, the package names handed to findPackage in order,
and the warnings logged by requirePackage. -/
structure RequireResult where
  exn : Option String
  resolved : List String
  warnings : List String
deriving DecidableEq

/-- Model of the per-name body of Packager.do_require (lines
2050-2068): for the name panda3d a missing version or host defaults to
the running build, an unresolved package raises PackagerError, and a
resolved package is handed to requirePackage. -/
def requireLoop (env : RequireEnv) (version host : Option String) :
    List String → RequireResult
  | [] => { exn := none, resolved := [], warnings := [] }
  | packageName :: rest =>
    let pversion :=
      if packageName == "panda3d" then some (version.getD env.runtimeVersion)
      else version
    let phost :=
      if packageName == "panda3d" then some (host.getD env.runtimeHost)
      else host
    match env.findPackage packageName pversion phost with
    | none =>
      { exn := some ("PackagerError: Unknown package " ++ packageName)
        resolved := [packageName]
        warnings := [] }
    | some package =>
      let r := requireLoop env version host rest
      { exn := r.exn
        resolved := packageName :: r.resolved
        warnings :=
          requirePackageWarnings env.runtimeVersion env.runtimeHost package
            ++ r.warnings }

/-- Model of Packager.do_require: reads the version and host keywords,
runs the keyword-cleanup loop (whose failure aborts the call before
any package is resolved), then resolves and requires each named
package in order. -/
def do_require (env : RequireEnv) (args : List String)
    (kw : List (String × String)) : RequireResult :=
  let version := (kw.find? (fun kv => kv.1 == "version")).map (fun kv => kv.2)
  let host := (kw.find? (fun kv => kv.1 == "host")).map (fun kv => kv.2)
  match doRequireKwCleanup kw with
  | Except.error e => { exn := some e, resolved := [], warnings := [] }
  | Except.ok _ => requireLoop env version host args

/-- A TinyXML element: tag, attribute list and child elements.  The
logical shape of the persisted descriptor documents; serialization to
bytes is the container codec and is out of scope. -/
inductive XmlElem where
  | mk : String → List (String × String) → List XmlElem → XmlElem

/-- The tag of an XML element. -/
def XmlElem.tag : XmlElem → String
  | .mk t _ _ => t

/-- The attribute list of an XML element. -/
def XmlElem.attrs : XmlElem → List (String × String)
  | .mk _ a _ => a

/-- The child elements of an XML element. -/
def XmlElem.children : XmlElem → List XmlElem
  | .mk _ _ c => c

/-- TiXmlElement.Attribute: the value of the first attribute with the
given key, or None when absent. -/
def XmlElem.attr (e : XmlElem) (key : String) : Option String :=
  (e.attrs.find? (fun kv => kv.1 == key)).map (fun kv => kv.2)

/-- The walk FirstChildElement(tag) / NextSiblingElement(tag): the
child elements carrying the tag, in document order. -/
def XmlElem.childElements (e : XmlElem) (tag : String) : List XmlElem :=
  e.children.filter (fun c => c.tag == tag)

/-- Python string truthiness of an optional attribute value: None and
the empty string are falsy. -/
def truthyAttr : Option String → Bool
  | none => false
  | some s => !(s == "")

/-- One entry of the requires list written into a descriptor. -/
structure DescRequire where
  packageName : String
  platform : Option String
  version : Option String
  host : String

/-- The Package state consulted by writeDescFile: identity attributes,
the patch-version counter and carried patch records read by
readDescFile, the config table, the flattened requirement list, the
extract table, and whether a .base archive was preserved. -/
structure DescPackage where
  packageName : String
  platform : Option String
  version : Option String
  patchVersion : String
  configs : List (String × String)
  requires : List DescRequire
  patches : List XmlElem
  extracts : List (String × XmlElem)
  baseExists : Bool

/-- The file attributes (size, timestamp, hash) that getFileSpec
computes for each archive form, abstracted as an oracle from the
element name to the attribute list. -/
structure DescEnv where
  fileSpecAttrs : String → List (String × String)

/-- The optional config element written by Packager.Package.__addConfigs:
present only when the config table is nonempty. -/
def descConfigChildren (pkg : DescPackage) : List XmlElem :=
  if pkg.configs.isEmpty then [] else [XmlElem.mk "config" pkg.configs []]

/-- One requires element written by writeDescFile: name, the required
platform only when the writing package itself has a platform, the
version when present, and the host. -/
def descRequireElem (pkg : DescPackage) (r : DescRequire) : XmlElem :=
  XmlElem.mk "requires"
    ([("name", r.packageName)]
      ++ (match pkg.platform, r.platform with
          | some _, some rp => [("platform", rp)]
          | _, _ => [])
      ++ (match r.version with | some v => [("version", v)] | none => [])
      ++ [("host", r.host)])
    []

/-- The requires elements written by writeDescFile. -/
def descRequiresChildren (pkg : DescPackage) : List XmlElem :=
  pkg.requires.map (descRequireElem pkg)

/-- The two archive file-spec elements written by writeDescFile. -/
def descArchiveChildren (env : DescEnv) : List XmlElem :=
  [XmlElem.mk "uncompressed_archive" (env.fileSpecAttrs "uncompressed_archive") [],
   XmlElem.mk "compressed_archive" (env.fileSpecAttrs "compressed_archive") []]

/-- The base_version file-spec element written by writeDescFile when a
.base archive was preserved. -/
def descBaseChildren (env : DescEnv) (pkg : DescPackage) : List XmlElem :=
  if pkg.baseExists then
    [XmlElem.mk "base_version" (env.fileSpecAttrs "base_version") []]
  else []

/-- The extract elements written by writeDescFile, in the order of the
sorted (lowercased name, element) extract table. -/
def descExtractChildren (pkg : DescPackage) : List XmlElem :=
  (sortByLe (fun a b => !(charListLt b.1.data a.1.data)) pkg.extracts).map
    (fun t => t.2)

/-- Model of Packager.Package.writeDescFile: the package element of
the written document, with attributes name, optional platform,
optional version and last_patch_version, followed by the optional
config element, the requires elements, the two archive file specs, the
optional base_version file spec, the carried patch records, and the
sorted extract table. -/
def writeDescElem (env : DescEnv) (pkg : DescPackage) : XmlElem :=
  XmlElem.mk "package"
    ([("name", pkg.packageName)]
      ++ (match pkg.platform with | some p => [("platform", p)] | none => [])
      ++ (match pkg.version with | some v => [("version", v)] | none => [])
      ++ [("last_patch_version", pkg.patchVersion)])
    (descConfigChildren pkg ++ descRequiresChildren pkg ++ descArchiveChildren env
      ++ descBaseChildren env pkg ++ pkg.patches ++ descExtractChildren pkg)

/-- What readDescFile recovers: the patch-version counter and the
cloned patch records. -/
structure ReadDescResult where
  patchVersion : String
  patches : List XmlElem

/-- Model of Packager.Package.readDescFile: defaults to counter 1 with
no patches when the document is missing or has no package element;
otherwise reads patch_version, falling back to last_patch_version,
keeping the default on a falsy value, and clones the patch children in
document order. -/
def readDescFile (doc : Option XmlElem) : ReadDescResult :=
  match doc with
  | none => { patchVersion := "1", patches := [] }
  | some xpackage =>
    let pv0 := xpackage.attr "patch_version"
    let pv1 := if truthyAttr pv0 then pv0 else xpackage.attr "last_patch_version"
    let patchVersion := if truthyAttr pv1 then pv1.getD "1" else "1"
    { patchVersion := patchVersion, patches := xpackage.childElements "patch" }

/-- The coarse effects of Packager.Package.installMultifile, in order:
opening the temporary multifile, finalizing the freezer, writing the
file contents into the multifile, and moving the archive into the
install directory. -/
inductive BuildEvent where
  | openTempMultifile
  | freezeModules
  | addToMultifile
  | installArchive
deriving DecidableEq

/-- The Package state consulted by the main-module check of
installMultifile. -/
structure ClosePackage where
  packageName : String
  p3dApplication : Bool
  mainModule : Option (String × String)

/-- Model of Packager.Package.installMultifile as an effect trace plus
an optional fatal error: the temporary multifile is opened and the
declared code files are scanned, then an application without a main
module raises PackagerError (lines 362-365) before any file content is
written to the multifile and before the archive reaches the install
directory; otherwise the remaining steps run, with the freezer, the
archive container and the file system modelled as succeeding
collaborators. -/
def installMultifile (pkg : ClosePackage) : List BuildEvent × Option String :=
  let events0 := [BuildEvent.openTempMultifile]
  if pkg.mainModule.isNone && pkg.p3dApplication then
    (events0, some ("PackagerError: No main_module specified for application "
      ++ pkg.packageName))
  else
    (events0
      ++ [BuildEvent.freezeModules, BuildEvent.addToMultifile,
          BuildEvent.installArchive],
      none)

/-- A posix-style packager configuration, with the extension sets of
Packager.__init__ restricted to a few representatives. -/
def cfgPosix : PackagerCfg :=
  { uncompressibleExtensions := ["mp3", "ogg"]
    imageExtensions := ["png", "jpg"]
    executableExtensions := ["so"]
    extractExtensions := ["so"]
    platformSpecificExtensions := ["so"]
    unprocessedExtensions := []
    caseSensitive := true
    excludeSystemFiles := ["libc.so"]
    excludeSystemGlobs := [fun s => s == "linux-gate.so.1"] }

/-- A file-system oracle on which every file exists. -/
def fsAll : FsEnv := { fileExists := fun _ => true }

/-- A fresh package over the posix configuration, with a user exclusion
pattern matching every name that ends in .txt. -/
def pkgFresh : Package :=
  { packager := cfgPosix
    skipFilenames := []
    excludedFilenames := [fun s => s.endsWith ".txt"]
    platformSpecificConfig := none
    files := []
    sourceFilenames := []
    targetFilenames := [] }

/-- Arguments adding src/readme.txt under the target name readme.txt,
explicitly. -/
def argsReadme : PackFileArgs :=
  { filename := "src/readme.txt"
    newName := some "readme.txt"
    deleteTemp := false
    explicit := true
    compress := none
    extract := none
    text := none
    unprocessed := none
    executable := none
    platformSpecific := none }

/-- Arguments adding other/readme.txt under the same target name
readme.txt from a different source path. -/
def argsReadme2 : PackFileArgs :=
  { filename := "other/readme.txt"
    newName := some "readme.txt"
    deleteTemp := false
    explicit := true
    compress := none
    extract := none
    text := none
    unprocessed := none
    executable := none
    platformSpecific := none }

/-- Arguments adding a .pz-suffixed shared library with no flag
overrides. -/
def argsLibPz : PackFileArgs :=
  { filename := "src/libfoo.so.pz"
    newName := some "libfoo.so.pz"
    deleteTemp := false
    explicit := false
    compress := none
    extract := none
    text := none
    unprocessed := none
    executable := none
    platformSpecific := none }

/-- A candidate package of version 1.0 for the local scan. -/
def importPkgV1 : ImportPackage := ImportPackage.mk "mypack" "1.0" []

/-- A candidate package of version 2.0 for the local scan. -/
def importPkgV2 : ImportPackage := ImportPackage.mk "mypack" "2.0" []

/-- A resolved panda3d package of version 0.9. -/
def pandaOld : RequirePkg :=
  { packageName := "panda3d", version := some "0.9", host := some "http://h" }

/-- A require environment whose running build is version 1.0.0 and
whose resolver knows exactly the panda3d package of version 0.9. -/
def requireEnv0 : RequireEnv :=
  { runtimeVersion := "1.0.0"
    runtimeHost := "http://h"
    findPackage := fun name pversion _ =>
      if name == "panda3d" && pversion == some "0.9" then some pandaOld
      else none }

/-- A descriptor environment whose file-spec oracle reports no
attributes. -/
def descEnv0 : DescEnv := { fileSpecAttrs := fun _ => [] }

/-- A concrete patch record. -/
def patchElem0 : XmlElem :=
  XmlElem.mk "patch" [("file", "mypack.1.0.p0.patch")] []

/-- A concrete descriptor package carrying one patch record, one
requirement, one extract and patch-version counter 3. -/
def descPkg0 : DescPackage :=
  { packageName := "mypack"
    platform := none
    version := some "1.0"
    patchVersion := "3"
    configs := []
    requires :=
      [{ packageName := "panda3d", platform := none,
         version := some "1.0.0", host := "http://h" }]
    patches := [patchElem0]
    extracts := [("libfoo.so", XmlElem.mk "extract" [("filename", "libfoo.so")] [])]
    baseExists := true }

/-- An application package closed without a main module. -/
def appNoMain : ClosePackage :=
  { packageName := "app1", p3dApplication := true, mainModule := none }

/-- A library package without a main module. -/
def libNoMain : ClosePackage :=
  { packageName := "lib1", p3dApplication := false, mainModule := none }

theorem extSplit_pz (l : List Char) :
    extSplit ('z' :: 'p' :: '.' :: l) = some (['z', 'p'], l) := rfl

theorem getExtension_append_pz (t : String) : getExtension (t ++ ".pz") = "pz" := by
  obtain ⟨d⟩ := t
  unfold getExtension
  rw [show ((String.mk d ++ ".pz").data.reverse : List Char)
        = 'z' :: 'p' :: '.' :: d.reverse from by simp [String.data_append]]
  rw [extSplit_pz]
  rfl

theorem dropExtension_append_pz (t : String) : dropExtension (t ++ ".pz") = t := by
  obtain ⟨d⟩ := t
  unfold dropExtension
  rw [show ((String.mk d ++ ".pz").data.reverse : List Char)
        = 'z' :: 'p' :: '.' :: d.reverse from by simp [String.data_append]]
  rw [extSplit_pz]
  rw [show (match (some (['z', 'p'], d.reverse) : Option (List Char × List Char)) with
      | some (_, r) => String.mk r.reverse
      | none => String.mk d ++ ".pz") = String.mk d.reverse.reverse from rfl]
  rw [List.reverse_reverse]

theorem append_pz_length_ne (t : String) : ¬((t ++ ".pz").length = 0) := by
  obtain ⟨d⟩ := t
  show ¬((String.mk d ++ ".pz").data.length = 0)
  rw [String.data_append]
  simp

/-- C6: the version-tuple comparator orders numeric runs as integers,
so 1.2.10 is above 1.2.9, which is above 1.2, and 1.10 is above 1.9. -/
theorem makeVersionTuple_ordering :
    verLt (makeVersionTuple "1.2.9") (makeVersionTuple "1.2.10") = true ∧
    verLt (makeVersionTuple "1.2.10") (makeVersionTuple "1.2.9") = false ∧
    verLt (makeVersionTuple "1.2") (makeVersionTuple "1.2.9") = true ∧
    verLt (makeVersionTuple "1.2.9") (makeVersionTuple "1.2") = false ∧
    verLt (makeVersionTuple "1.9") (makeVersionTuple "1.10") = true ∧
    verLt (makeVersionTuple "1.10") (makeVersionTuple "1.9") = false := by
  decide

/-- C4: with two valid candidates of versions 1.0 and 2.0 listed in
that order and no prior requirements, the local scan returns the
version 1.0 candidate, although version 2.0 sorts strictly higher and
is also compatible: the sort result of the candidate list is discarded
by the caller (and is itself only a list of copies of the stale file
variable), so candidates are examined in raw directory order, against
the docstrings of __scanPackageDir and __sortImportPackages. -/
theorem scanPackageDir_unsorted_selection :
    scanPackageDirSelect () [importPkgV1, importPkgV2] [] = some importPkgV1 ∧
    packageIsValid importPkgV2 [] = true ∧
    verLt (makeVersionTuple importPkgV1.version)
      (makeVersionTuple importPkgV2.version) = true ∧
    sortImportPackages () [importPkgV1, importPkgV2] = [(), ()] :=
  ⟨rfl, rfl, rfl, rfl⟩

/-- C3: for an explicitly added file, isExcluded is true exactly when
the target name is in the package skip set; the system denylist, the
system globs, the user exclusion patterns and the platform rule are
never consulted. -/
theorem isExcluded_explicit_skip_only (file : PackFile) (package : Package)
    (h : file.explicit = true) :
    file.isExcluded package = package.skipFilenames.contains file.newName := by
  unfold PackFile.isExcluded
  simp [h]

/-- Witness for C3: an explicitly added readme.txt is not excluded even
though the package carries a user exclusion pattern matching every
.txt name. -/
theorem isExcluded_explicit_skip_only_witness :
    (PackFile.make cfgPosix argsReadme).explicit = true ∧
    (PackFile.make cfgPosix argsReadme).isExcluded pkgFresh
      = pkgFresh.skipFilenames.contains (PackFile.make cfgPosix argsReadme).newName ∧
    (PackFile.make cfgPosix argsReadme).isExcluded pkgFresh = false :=
  ⟨rfl, isExcluded_explicit_skip_only _ _ rfl, rfl⟩

/-- C1: when the constructed file carries a target name already present
in the target map and a source filename not yet recorded, addFile
returns the package completely unchanged: the files list and the
target map still hold the first writer and no entry is overwritten. -/
theorem addFile_target_collision_first_writer_wins (env : FsEnv) (package : Package)
    (a : PackFileArgs)
    (hsrc : hasKey package.sourceFilenames
      (PackFile.make package.packager a).filename = false)
    (htgt : hasKey package.targetFilenames
      (PackFile.make package.packager a).newName = true) :
    Package.addFile env package a = package := by
  unfold Package.addFile
  simp only [hsrc, htgt, Bool.false_eq_true, if_false, if_true]

/-- Witness for C1: after adding src/readme.txt as readme.txt, adding
other/readme.txt under the same target name leaves the package
unchanged. -/
theorem addFile_target_collision_first_writer_wins_witness :
    hasKey (Package.addFile fsAll pkgFresh argsReadme).sourceFilenames
        (PackFile.make (Package.addFile fsAll pkgFresh argsReadme).packager
          argsReadme2).filename = false ∧
    hasKey (Package.addFile fsAll pkgFresh argsReadme).targetFilenames
        (PackFile.make (Package.addFile fsAll pkgFresh argsReadme).packager
          argsReadme2).newName = true ∧
    Package.addFile fsAll (Package.addFile fsAll pkgFresh argsReadme) argsReadme2
      = Package.addFile fsAll pkgFresh argsReadme :=
  ⟨rfl, rfl,
    addFile_target_collision_first_writer_wins fsAll _ argsReadme2 rfl rfl⟩

theorem addFile_success_eq (env : FsEnv) (package : Package) (a : PackFileArgs)
    (hsrc : hasKey package.sourceFilenames
      (PackFile.make package.packager a).filename = false)
    (htgt : hasKey package.targetFilenames
      (PackFile.make package.packager a).newName = false)
    (hex : ((PackFile.make package.packager a).text.isNone
      && !(env.fileExists (PackFile.make package.packager a).filename)) = false) :
    Package.addFile env package a
      = { package with
          files := package.files ++ [PackFile.make package.packager a]
          sourceFilenames := package.sourceFilenames
            ++ [((PackFile.make package.packager a).filename,
                 PackFile.make package.packager a)]
          targetFilenames := package.targetFilenames
            ++ [((PackFile.make package.packager a).newName,
                 PackFile.make package.packager a)] } := by
  unfold Package.addFile
  simp only [hsrc, htgt, hex, Bool.false_eq_true, if_false]

/-- C2: adding a fresh existing file and then adding it again with the
same source filename leaves the package exactly as after the first
call (the second call is a no-op), and the files list holds exactly
one PackFile with that source filename. -/
theorem addFile_source_idempotent (env : FsEnv) (package : Package) (a : PackFileArgs)
    (h0 : countSource package.files (PackFile.make package.packager a).filename = 0)
    (hsrc : hasKey package.sourceFilenames
      (PackFile.make package.packager a).filename = false)
    (htgt : hasKey package.targetFilenames
      (PackFile.make package.packager a).newName = false)
    (hex : ((PackFile.make package.packager a).text.isNone
      && !(env.fileExists (PackFile.make package.packager a).filename)) = false) :
    Package.addFile env (Package.addFile env package a) a
        = Package.addFile env package a ∧
    countSource (Package.addFile env package a).files
        (PackFile.make package.packager a).filename = 1 := by
  rw [addFile_success_eq env package a hsrc htgt hex]
  constructor
  · unfold Package.addFile
    have hk : hasKey
        (package.sourceFilenames
          ++ [((PackFile.make package.packager a).filename,
               PackFile.make package.packager a)])
        (PackFile.make package.packager a).filename = true := by
      simp [hasKey, List.any_append]
    simp only [hk, if_true]
  · unfold countSource at h0 ⊢
    simp [List.filter_append, h0]

/-- Witness for C2: adding src/readme.txt twice to a fresh package is
idempotent and leaves one PackFile for that source. -/
theorem addFile_source_idempotent_witness :
    countSource pkgFresh.files (PackFile.make pkgFresh.packager argsReadme).filename
      = 0 ∧
    hasKey pkgFresh.sourceFilenames
      (PackFile.make pkgFresh.packager argsReadme).filename = false ∧
    hasKey pkgFresh.targetFilenames
      (PackFile.make pkgFresh.packager argsReadme).newName = false ∧
    ((PackFile.make pkgFresh.packager argsReadme).text.isNone
      && !(fsAll.fileExists (PackFile.make pkgFresh.packager argsReadme).filename))
      = false ∧
    (Package.addFile fsAll (Package.addFile fsAll pkgFresh argsReadme) argsReadme
        = Package.addFile fsAll pkgFresh argsReadme ∧
      countSource (Package.addFile fsAll pkgFresh argsReadme).files
        (PackFile.make pkgFresh.packager argsReadme).filename = 1) :=
  ⟨rfl, rfl, rfl, rfl,
    addFile_source_idempotent fsAll pkgFresh argsReadme rfl rfl rfl rfl⟩

/-- C7: a PackFile constructed with a target name ending in .pz and no
flag overrides gets compress forced on, the stored target name with
the .pz suffix stripped, and every other flag derived from the
extension that remains after stripping. -/
theorem packFile_pz_compress_strip (cfg : PackagerCfg) (t : String) (a : PackFileArgs)
    (hn : a.newName = some (t ++ ".pz"))
    (hc : a.compress = none) (hx : a.executable = none) (he : a.extract = none)
    (hp : a.platformSpecific = none) (hu : a.unprocessed = none) :
    PackFile.make cfg a
      = { filename := a.filename
          newName := t
          deleteTemp := a.deleteTemp
          explicit := a.explicit
          compress := true
          extract := cfg.executableExtensions.contains (getExtension t)
            || cfg.extractExtensions.contains (getExtension t)
          text := a.text
          unprocessed := cfg.executableExtensions.contains (getExtension t)
            || cfg.unprocessedExtensions.contains (getExtension t)
          executable := cfg.executableExtensions.contains (getExtension t)
          platformSpecific := cfg.executableExtensions.contains (getExtension t)
            || cfg.platformSpecificExtensions.contains (getExtension t) } := by
  have h3 : (".pz" : String).length = 3 := rfl
  unfold PackFile.make
  rw [hn, hc, hx, he, hp, hu]
  simp [h3, getExtension_append_pz, dropExtension_append_pz]

/-- Witness for C7: libfoo.so.pz is stored as libfoo.so, compressed,
and classified as an executable shared library. -/
theorem packFile_pz_compress_strip_witness :
    argsLibPz.newName = some ("libfoo.so" ++ ".pz") ∧
    PackFile.make cfgPosix argsLibPz
      = { filename := "src/libfoo.so.pz"
          newName := "libfoo.so"
          deleteTemp := false
          explicit := false
          compress := true
          extract := true
          text := none
          unprocessed := true
          executable := true
          platformSpecific := true } :=
  ⟨rfl, by
    rw [packFile_pz_compress_strip cfgPosix "libfoo.so" argsLibPz rfl rfl rfl rfl
      rfl rfl]
    decide⟩

/-- C9: closing an application package without a main module fails with
the PackagerError configuration message while the effect trace holds
only the temporary multifile open (no content written, no archive
installed); a non-application package passes the check and closes with
no error. -/
theorem installMultifile_mainModule_check (pkg : ClosePackage) :
    (pkg.p3dApplication = true → pkg.mainModule = none →
      (installMultifile pkg).2
          = some ("PackagerError: No main_module specified for application "
              ++ pkg.packageName) ∧
        (installMultifile pkg).1 = [BuildEvent.openTempMultifile]) ∧
    (pkg.p3dApplication = false → (installMultifile pkg).2 = none) := by
  constructor
  · intro hA hM
    unfold installMultifile
    simp [hA, hM]
  · intro hA
    unfold installMultifile
    simp [hA]

/-- Witness for C9: the application app1 without a main module fails
fatally with nothing written, and the library lib1 closes with no
error. -/
theorem installMultifile_mainModule_check_witness :
    ((installMultifile appNoMain).2
        = some ("PackagerError: No main_module specified for application "
            ++ appNoMain.packageName) ∧
      (installMultifile appNoMain).1 = [BuildEvent.openTempMultifile]) ∧
    (installMultifile libNoMain).2 = none :=
  ⟨(installMultifile_mainModule_check appNoMain).1 rfl rfl,
   (installMultifile_mainModule_check libNoMain).2 rfl⟩

theorem kwHasKey_filter_version (kw : List (String × String)) (k : String)
    (hk : (k == "version") = false) :
    kwHasKey (kw.filter (fun kv => !(kv.1 == "version"))) k = kwHasKey kw k := by
  simp only [kwHasKey]
  induction kw with
  | nil => rfl
  | cons kv rest ih =>
    have hk2 : k ≠ "version" := by simpa using hk
    cases h : (kv.1 == "version") with
    | true =>
      have h1 : kv.1 = "version" := by simpa using h
      have hkv : (kv.1 == k) = false := by
        rw [beq_eq_false_iff_ne, h1]
        exact fun he => hk2 he.symm
      rw [List.filter_cons_of_neg (by simp [h])]
      rw [ih, List.any_cons, hkv, Bool.false_or]
    | false =>
      rw [List.filter_cons_of_pos (by simp [h])]
      rw [List.any_cons, List.any_cons, ih]

theorem kwHasKey_filter_version_self (kw : List (String × String)) :
    kwHasKey (kw.filter (fun kv => !(kv.1 == "version"))) "version" = false := by
  simp only [kwHasKey]
  induction kw with
  | nil => rfl
  | cons kv rest ih =>
    cases h : (kv.1 == "version") with
    | true =>
      rw [List.filter_cons_of_neg (by simp [h])]
      exact ih
    | false =>
      rw [List.filter_cons_of_pos (by simp [h])]
      rw [List.any_cons, h, Bool.false_or]
      exact ih

/-- C10: any do_require call whose keyword dictionary carries the host
key raises KeyError on the key version inside the cleanup loop,
whether or not a version keyword is also present, before any package
is resolved or required. -/
theorem do_require_host_keyerror (env : RequireEnv) (args : List String)
    (kw : List (String × String)) (h : kwHasKey kw "host" = true) :
    do_require env args kw
      = { exn := some "KeyError: version", resolved := [], warnings := [] } := by
  unfold do_require doRequireKwCleanup kwDel
  cases hv : kwHasKey kw "version" with
  | true =>
    have h1 : kwHasKey (kw.filter (fun kv => !(kv.1 == "version"))) "host"
        = true := by
      rw [kwHasKey_filter_version kw "host" rfl]
      exact h
    simp [hv, h1, kwHasKey_filter_version_self]
  | false =>
    simp [hv, h]

/-- Witness for C10: requiring panda3d with a host keyword fails with
KeyError and resolves nothing. -/
theorem do_require_host_keyerror_witness :
    kwHasKey [("host", "http://other")] "host" = true ∧
    do_require requireEnv0 ["panda3d"] [("host", "http://other")]
      = { exn := some "KeyError: version", resolved := [], warnings := [] } :=
  ⟨rfl,
    do_require_host_keyerror requireEnv0 ["panda3d"] [("host", "http://other")] rfl⟩

/-- Counterexample for C5: requiring panda3d at version 0.9 while the
running build is 1.0.0, with a panda3d 0.9 package available, does NOT
fail fatally: the call succeeds with a logged version warning. -/
theorem require_panda3d_mismatch_warns_cex :
    do_require requireEnv0 ["panda3d"] [("version", "0.9")]
      = { exn := none, resolved := ["panda3d"],
          warnings := ["panda3d version mismatch"] } := by
  decide

/-- C5 (amended): requiring panda3d with a version different from the
running build that resolves to a package draws a warning and succeeds
(not fatal; a fatal PackagerError arises only when no package
resolves), and requiring panda3d with no version behaves exactly as
requiring it pinned at the running build version. -/
theorem do_require_panda3d_pin_and_warn (env : RequireEnv) (v : String)
    (p : RequirePkg)
    (hfind : env.findPackage "panda3d" (some v) (some env.runtimeHost) = some p)
    (hname : p.packageName = "panda3d")
    (hver : (p.version == some env.runtimeVersion) = false) :
    (do_require env ["panda3d"] [("version", v)]).exn = none ∧
    (do_require env ["panda3d"] [("version", v)]).warnings
      = ["panda3d version mismatch"] ∧
    do_require env ["panda3d"] []
      = do_require env ["panda3d"] [("version", env.runtimeVersion)] := by
  have hnil : ∀ (a b : Option String),
      requireLoop env a b [] = { exn := none, resolved := [], warnings := [] } :=
    fun _ _ => rfl
  have hver2 : ¬(p.version = some env.runtimeVersion) := by simpa using hver
  refine ⟨?_, ?_, ?_⟩
  · unfold do_require doRequireKwCleanup kwDel requireLoop
    simp [kwHasKey, hfind, requirePackageWarnings, hnil]
  · unfold do_require doRequireKwCleanup kwDel requireLoop
    simp [kwHasKey, hfind, requirePackageWarnings, hname, hver2, hnil]
  · unfold do_require doRequireKwCleanup kwDel requireLoop
    simp only [kwHasKey]
    cases hfp : env.findPackage "panda3d" (some env.runtimeVersion)
        (some env.runtimeHost) with
    | none => simp [hfp]
    | some q => simp [hfp, hnil]

/-- Witness for C5 (amended): the 0.9 mismatch draws the warning and
succeeds, and the unversioned require equals the pinned require. -/
theorem do_require_panda3d_pin_and_warn_witness :
    requireEnv0.findPackage "panda3d" (some "0.9") (some requireEnv0.runtimeHost)
      = some pandaOld ∧
    pandaOld.packageName = "panda3d" ∧
    (pandaOld.version == some requireEnv0.runtimeVersion) = false ∧
    ((do_require requireEnv0 ["panda3d"] [("version", "0.9")]).exn = none ∧
      (do_require requireEnv0 ["panda3d"] [("version", "0.9")]).warnings
        = ["panda3d version mismatch"] ∧
      do_require requireEnv0 ["panda3d"] []
        = do_require requireEnv0 ["panda3d"]
            [("version", requireEnv0.runtimeVersion)]) :=
  ⟨rfl, rfl, rfl,
    do_require_panda3d_pin_and_warn requireEnv0 "0.9" pandaOld rfl rfl rfl⟩

theorem mem_insertLe (le : α → α → Bool) (x y : α) (l : List α) :
    y ∈ insertLe le x l ↔ y = x ∨ y ∈ l := by
  induction l with
  | nil => simp [insertLe]
  | cons z zs ih =>
    unfold insertLe
    cases h : le x z with
    | true => simp
    | false =>
      simp only [h, Bool.false_eq_true, if_false, List.mem_cons, ih]
      tauto

theorem mem_sortByLe (le : α → α → Bool) (x : α) (l : List α) :
    x ∈ sortByLe le l ↔ x ∈ l := by
  induction l with
  | nil => simp [sortByLe]
  | cons z zs ih =>
    simp [sortByLe, mem_insertLe, ih]

theorem filter_tag_nil (tag : String) (l : List XmlElem)
    (h : ∀ e ∈ l, (e.tag == tag) = false) :
    l.filter (fun c => c.tag == tag) = [] := by
  rw [List.filter_eq_nil_iff]
  intro a ha
  simp [h a ha]

theorem writeDescElem_attr_patchVersion (env : DescEnv) (pkg : DescPackage) :
    (writeDescElem env pkg).attr "patch_version" = none := by
  unfold writeDescElem XmlElem.attr XmlElem.attrs
  cases pkg.platform <;> cases pkg.version <;> simp

theorem writeDescElem_attr_lastPatchVersion (env : DescEnv) (pkg : DescPackage) :
    (writeDescElem env pkg).attr "last_patch_version" = some pkg.patchVersion := by
  unfold writeDescElem XmlElem.attr XmlElem.attrs
  cases pkg.platform <;> cases pkg.version <;> simp

theorem writeDescElem_childElements_patch (env : DescEnv) (pkg : DescPackage)
    (hp : ∀ e ∈ pkg.patches, e.tag = "patch")
    (he : ∀ t ∈ pkg.extracts, (t.2.tag == "patch") = false) :
    (writeDescElem env pkg).childElements "patch" = pkg.patches := by
  have h1 : (descConfigChildren pkg).filter (fun c => c.tag == "patch") = [] := by
    unfold descConfigChildren
    cases pkg.configs.isEmpty <;> simp [XmlElem.tag]
  have h2 : (descRequiresChildren pkg).filter (fun c => c.tag == "patch") = [] := by
    apply filter_tag_nil
    intro e he2
    rcases List.mem_map.mp he2 with ⟨r, hr, rfl⟩
    rfl
  have h3 : (descArchiveChildren env).filter (fun c => c.tag == "patch") = [] := by
    simp [descArchiveChildren, XmlElem.tag]
  have h4 : (descBaseChildren env pkg).filter (fun c => c.tag == "patch") = [] := by
    unfold descBaseChildren
    cases pkg.baseExists <;> simp [XmlElem.tag]
  have h5 : pkg.patches.filter (fun c => c.tag == "patch") = pkg.patches := by
    rw [List.filter_eq_self]
    intro e he2
    simp [hp e he2]
  have h6 : (descExtractChildren pkg).filter (fun c => c.tag == "patch") = [] := by
    apply filter_tag_nil
    intro e he2
    rcases List.mem_map.mp he2 with ⟨t, ht, rfl⟩
    exact he t ((mem_sortByLe _ t pkg.extracts).mp ht)
  unfold writeDescElem XmlElem.childElements XmlElem.children
  simp only [List.filter_append, h1, h2, h3, h4, h5, h6]
  simp

/-- C8: reading back a descriptor document written with patch-version
counter v and patch-record list h reproduces exactly v and h, provided
v is a nonempty string (the program only ever writes the default 1 or
a value read back from a prior document) and the carried records are
patch elements while the extract elements are not. -/
theorem descFile_roundTrip (env : DescEnv) (pkg : DescPackage)
    (hv : (pkg.patchVersion == "") = false)
    (hp : ∀ e ∈ pkg.patches, e.tag = "patch")
    (he : ∀ t ∈ pkg.extracts, (t.2.tag == "patch") = false) :
    readDescFile (some (writeDescElem env pkg))
      = { patchVersion := pkg.patchVersion, patches := pkg.patches } := by
  simp only [readDescFile, writeDescElem_attr_patchVersion,
    writeDescElem_attr_lastPatchVersion,
    writeDescElem_childElements_patch env pkg hp he, truthyAttr]
  simp [hv]

/-- Witness for C8: the concrete descriptor with counter 3, one patch
record, one requirement, one extract and a preserved base archive
round-trips exactly. -/
theorem descFile_roundTrip_witness :
    (descPkg0.patchVersion == "") = false ∧
    (∀ e ∈ descPkg0.patches, e.tag = "patch") ∧
    (∀ t ∈ descPkg0.extracts, (t.2.tag == "patch") = false) ∧
    readDescFile (some (writeDescElem descEnv0 descPkg0))
      = { patchVersion := descPkg0.patchVersion, patches := descPkg0.patches } :=
  ⟨rfl, by decide, by decide,
    descFile_roundTrip descEnv0 descPkg0 rfl (by decide) (by decide)⟩

end P3d
